import Mathlib

/-!
Verification of the webhook ingestion and state-reconciliation pipeline of the
receivemessage repository (FastAPI service in `main.py` / `utils.py`).

The embedding is shallow: the Python functions of the pipeline are translated
into executable Lean definitions. External collaborators are modelled as
explicit oracle parameters, exactly where the Python code calls out of process:

* the Supabase REST substrate is modelled as an in-memory database value
  (`DB`) threaded through the functions; REST calls are assumed to be
  transport-reliable (every request returns its success status), since the
  claims concern the reconciliation logic, not network failure;
* the WhatsApp Cloud API send (`requests.post` in `send_whatsapp_message`) is
  an oracle value `ProviderResp` describing the HTTP response;
* `uuid.uuid4()` draws are fresh-string parameters;
* the Gemini model call inside `generate_ai_reply` is an oracle function
  `String → Option String` (`none` models an exception / unavailability);
* wall-clock timestamps (`datetime.now()`) are omitted from the stored rows:
  no claim mentions them.

Python truthiness on optional strings (`if not phone`) is modelled by
`pyFalsy`, which is true on `none` and on `some ""`.
-/

/-- Python truthiness of an optional string: `None` and `""` are falsy. -/
def pyFalsy : Option String → Bool
  | none => true
  | some s => s = ""

/-- Python `x or d` for an optional string `x` and default `d`: the default is
taken when `x` is `None` or empty. -/
def pyOrStr (x : Option String) (d : String) : String :=
  match x with
  | none => d
  | some s => if s = "" then d else s

/-! ## Phone normalization

`main.py` inlines the same three lines in every handler
(e.g. `process_incoming_message`, main.py:322-325) and
`store_conversation_with_message` (utils.py:399-402):

    phone_clean = phone.replace("+", "").replace(" ", "")
    if not phone_clean.startswith("91"):
        phone_clean = "91" + phone_clean

Python `str.replace(c, "")` with a one-character pattern removes every
occurrence of that character, i.e. it is a filter. -/

/-- Character-list core of `phone.replace("+", "").replace(" ", "")`: drop
every plus sign and every space character (and nothing else). -/
def stripPlusSpaceL (l : List Char) : List Char :=
  l.filter fun c => !(c == '+' || c == ' ')

/-- Character-list core of the inline phone normalization: strip plus signs
and spaces, then prepend the default country code when the result does not
already start with it. -/
def normalizePhoneL (l : List Char) : List Char :=
  if List.isPrefixOf ['9', '1'] (stripPlusSpaceL l) then stripPlusSpaceL l
  else '9' :: '1' :: stripPlusSpaceL l

/-- String form of `phone.replace("+", "").replace(" ", "")` as used by
`store_lead` (utils.py:175), which strips but does not prepend the prefix. -/
def stripPlusSpaceS (s : String) : String :=
  String.mk (stripPlusSpaceL s.data)

/-- The inline phone normalization of `main.py` / `utils.py`: strip `+` and
spaces, prepend `"91"` when missing. -/
def normalizePhone (s : String) : String :=
  String.mk (normalizePhoneL s.data)


/-! ## Data model

Row shapes follow the JSON dictionaries the Python code POSTs to the Supabase
REST endpoints (`/rest/v1/messages`, `/rest/v1/leads`, `/rest/v1/conversations`,
`/rest/v1/templates`). `error_message` is a column of the messages table that
the inserts leave null and `update_message_status` patches. Timestamp columns
(`created_at`, `updated_at`) are filled by the database / wall clock and are
omitted: no claim mentions them. -/

/-- One row of the `messages` table, as built by
`store_conversation_with_message` (utils.py:409-420). -/
structure MessageRow where
  phone : String
  message : String
  direction : String
  status : String
  sender_name : String
  sender_type : String
  message_id : Option String
  media_url : Option String
  media_type : Option String
  caption : Option String
  error_message : Option String
  deriving Repr, DecidableEq

instance : Inhabited MessageRow :=
  ⟨⟨"", "", "", "", "", "", none, none, none, none, none⟩⟩

/-- One row of the `leads` table (utils.py:192-196). `id` is the primary key
the database assigns on insert and returns in the representation. -/
structure LeadRow where
  id : Nat
  phone : String
  name : String
  status : String
  deriving Repr, DecidableEq

/-- One row of the `conversations` table (utils.py:479-488). -/
structure ConversationRow where
  lead_id : Nat
  phone : String
  message : String
  sender : String
  sender_type : String
  direction : String
  status : String
  message_id : Option String
  deriving Repr, DecidableEq

/-- One row of the `templates` table, restricted to the columns
`process_template_status_update` touches (main.py:488-494). -/
structure TemplateRow where
  template_name : String
  status : String
  rejection_reason : Option String
  deriving Repr, DecidableEq

/-- The persistence substrate behind the Supabase REST interface, as an
in-memory value. `nextLeadId` models the primary-key sequence of `leads`. -/
structure DB where
  leads : List LeadRow
  messages : List MessageRow
  conversations : List ConversationRow
  templates : List TemplateRow
  nextLeadId : Nat
  deriving Repr, DecidableEq

/-- One entry of the in-memory `recent_messages` list
(`add_to_recent_messages`, utils.py:82-89; the `timestamp` field, filled from
the wall clock, is omitted). -/
structure RecentEntry where
  message : String
  sender : String
  phone : String
  direction : String
  status : String
  deriving Repr, DecidableEq

/-- Full in-process state: database plus the global `recent_messages` list. -/
structure AppState where
  db : DB
  recent : List RecentEntry
  deriving Repr, DecidableEq

/-! ## In-memory recent-messages buffer (utils.py:17-18, 73-94) -/

/-- `MAX_RECENT_MESSAGES` (utils.py:18). -/
def MAX_RECENT_MESSAGES : Nat := 100

/-- The `msg_entry` dictionary built by `add_to_recent_messages`
(utils.py:82-89): the `status` field is derived from the direction. -/
def recentEntryOf (message sender phone direction : String) : RecentEntry :=
  { message := message, sender := sender, phone := phone,
    direction := direction,
    status := if direction = "sent" then "sent" else "received" }

/-- `add_to_recent_messages(message, sender, phone, direction)`
(utils.py:73-94): append the entry, then keep only the last
`MAX_RECENT_MESSAGES` entries (`recent_messages[-MAX_RECENT_MESSAGES:]`). -/
def add_to_recent_messages (recent : List RecentEntry)
    (message sender phone direction : String) : List RecentEntry :=
  let l := recent ++ [recentEntryOf message sender phone direction]
  if MAX_RECENT_MESSAGES < l.length then l.drop (l.length - MAX_RECENT_MESSAGES)
  else l

/-! ## Repository operations (utils.py) -/

/-- `store_lead(phone, name)` (utils.py:167-219): strip `+`/spaces from the
key (NB: this helper does not prepend the country prefix), return the first
existing lead for the key if any, otherwise insert a new lead with status
`"new"` and default display name. Returns (success, lead, database).
`configured` stands for `SUPABASE_URL and SUPABASE_KEY` being set. -/
def store_lead (configured : Bool) (phone : String) (name : Option String)
    (db : DB) : Bool × Option LeadRow × DB :=
  if !configured then (false, none, db)
  else
    match db.leads.find? (fun l => l.phone == stripPlusSpaceS phone) with
    | some l => (true, some l, db)
    | none =>
      let newLead : LeadRow :=
        { id := db.nextLeadId, phone := stripPlusSpaceS phone,
          name := pyOrStr name ("Lead " ++ stripPlusSpaceS phone),
          status := "new" }
      (true, some newLead,
        { db with leads := db.leads ++ [newLead],
                  nextLeadId := db.nextLeadId + 1 })

/-- The `message_data` dictionary POSTed to `/rest/v1/messages` by
`store_conversation_with_message` (utils.py:409-420). -/
def scmMessageRow (phone_clean message sender direction status sender_type
    mid : String) (media_url media_type caption : Option String) :
    MessageRow :=
  { phone := phone_clean, message := message, direction := direction,
    status := status, sender_name := sender, sender_type := sender_type,
    message_id := some mid, media_url := media_url,
    media_type := media_type, caption := caption, error_message := none }

/-- The `conversation_data` dictionary POSTed to `/rest/v1/conversations` by
`store_conversation_with_message` (utils.py:479-488). -/
def scmConversationRow (lead_id : Nat) (phone_clean message sender sender_type
    direction status mid : String) : ConversationRow :=
  { lead_id := lead_id, phone := phone_clean, message := message,
    sender := sender, sender_type := sender_type, direction := direction,
    status := status, message_id := some mid }

/-- `store_conversation_with_message(...)` (utils.py:364-511): normalize the
phone key, substitute a fresh UUID when no message id was supplied
(utils.py:404-406), insert the message row, then look up or create the lead
(status `"active"` here), and insert the conversation row when a lead id is
available. `freshId` stands for the `str(uuid.uuid4())` draw. -/
def store_conversation_with_message (configured : Bool) (freshId : String)
    (phone message sender direction status sender_type : String)
    (message_id media_url media_type caption : Option String)
    (db : DB) : Bool × DB :=
  if !configured then (false, db)
  else
    let phone_clean := normalizePhone phone
    let mid := pyOrStr message_id freshId
    let msgRow : MessageRow := scmMessageRow phone_clean message sender
      direction status sender_type mid media_url media_type caption
    let db1 : DB := { db with messages := db.messages ++ [msgRow] }
    match db1.leads.find? (fun l => l.phone == phone_clean) with
    | some l =>
      let convRow := scmConversationRow l.id phone_clean message sender
        sender_type direction status mid
      (true, { db1 with conversations := db1.conversations ++ [convRow] })
    | none =>
      let newLead : LeadRow :=
        { id := db1.nextLeadId, phone := phone_clean,
          name := "Lead " ++ phone_clean, status := "active" }
      let db2 : DB :=
        { db1 with leads := db1.leads ++ [newLead],
                   nextLeadId := db1.nextLeadId + 1 }
      let convRow := scmConversationRow newLead.id phone_clean message sender
        sender_type direction status mid
      (true, { db2 with conversations := db2.conversations ++ [convRow] })

/-- The row-level effect of the PATCH issued by `update_message_status`: a
row whose `message_id` matches gets both the `status` and `error_message`
columns overwritten; any other row is untouched. -/
def patchMessageRow (message_id status : String)
    (error_message : Option String) (r : MessageRow) : MessageRow :=
  if r.message_id == some message_id then
    { r with status := status, error_message := error_message }
  else r

/-- `update_message_status(message_id, status, error_message)`
(utils.py:515-550): PATCH `messages?message_id=eq.{message_id}` with
`{"status": status, "error_message": error_message}` — every matching row gets
both columns overwritten (`error_message` is set to null when the argument is
`None`). The PATCH returns 200 whether or not any row matched. -/
def update_message_status (configured : Bool) (message_id status : String)
    (error_message : Option String) (db : DB) : Bool × DB :=
  if !configured then (false, db)
  else
    (true,
      { db with messages :=
          db.messages.map (patchMessageRow message_id status error_message) })

/-! ## WhatsApp Cloud API send (utils.py:604-647) -/

/-- The relevant shape of the provider HTTP response to
`POST /{phone_number_id}/messages`: the status code, and the `"messages"`
array of the JSON body projected to each element's optional `"id"` field
(`none` when the array or the field is absent). -/
structure ProviderResp where
  status : Nat
  messages : Option (List (Option String))
  deriving Repr, DecidableEq

/-- `send_whatsapp_message(phone_number_id, access_token, phone, message)`
(utils.py:604-647). The network call is the oracle `resp`. On HTTP 200/201 the
message id is read as `data.get("messages", [{}])[0].get("id", "unknown")`:
a missing `"messages"` key defaults to `[{}]` (so the id defaults to
`"unknown"`), an explicitly empty array makes `[0]` raise IndexError, which
the enclosing `except` turns into `(False, "")`. On any other status the
result is `(False, "")`. -/
def send_whatsapp_message (phone_number_id access_token phone message : String)
    (resp : ProviderResp) : Bool × String :=
  if phone_number_id = "" || access_token = "" then (false, "")
  else if resp.status = 200 || resp.status = 201 then
    match resp.messages with
    | none => (true, "unknown")
    | some [] => (false, "")
    | some (none :: _) => (true, "unknown")
    | some (some i :: _) => (true, i)
  else (false, "")

/-! ## Gemini reply generation (utils.py:563-600)

`generate_ai_reply` is defined in utils.py and imported by main.py, but the
webhook pipeline never calls it; it is embedded here because claim C1 compares
its output with the reply the pipeline actually sends. The Gemini model call
is the oracle `gemini : String → Option String` (`none` models an exception or
an unavailable library). -/

/-- The fallback reply returned on every failure path of `generate_ai_reply`
(utils.py:568, 572, 578, 600). -/
def agent_fallback_reply : String :=
  "Thank you for your message. An agent will respond soon."

/-- The prompt context built by `generate_ai_reply` (utils.py:584-588). -/
def build_reply_context (message : String)
    (conversation_history : Option (List String)) : String :=
  let base :=
    "You are a helpful WhatsApp customer service agent. Answer briefly and professionally."
  let withHist :=
    match conversation_history with
    | none => base
    | some h =>
      if h.isEmpty then base
      else base ++ "\n\nRecent conversation:\n" ++
        String.intercalate "\n" (h.drop (h.length - 5))
  withHist ++ "\n\nCustomer message: " ++ message

/-- `generate_ai_reply(message, phone, conversation_history)`
(utils.py:563-600): returns the fallback when Gemini is not ready, the API key
is missing, or the model call fails; returns `"Thank you for your message."`
when the model responds with empty text; otherwise the model text. -/
def generate_ai_reply (geminiReady : Bool) (apiKey : String)
    (gemini : String → Option String) (message : String) (phone : String)
    (conversation_history : Option (List String)) : String :=
  if !geminiReady then agent_fallback_reply
  else if apiKey = "" then agent_fallback_reply
  else
    match gemini (build_reply_context message conversation_history) with
    | none => agent_fallback_reply
    | some t => if t = "" then "Thank you for your message." else t

/-! ## Inbound message processing (main.py:304-391) -/

/-- The projection of one element of the webhook `messages` array that
`process_incoming_message` reads: `message.get("from")`,
`message.get("text", {}).get("body", "")` and `message.get("id")`
(the unused `timestamp` is omitted). `from` is a reserved word in Lean, hence
`fromPhone`. -/
structure IncomingMsg where
  fromPhone : Option String
  textBody : String
  msgId : Option String
  deriving Repr, DecidableEq

/-- The external nondeterminism consumed by one run of
`process_incoming_message`: the provider response to the auto-reply send and
the `str(uuid.uuid4())` draws of the three potential generation points
(inbound store, reply id fallback, outbound store). -/
structure ExtOracle where
  resp : ProviderResp
  freshInbound : String
  freshReplyId : String
  freshOutbound : String
  deriving Repr, DecidableEq

/-- The hard-coded automatic reply of `process_incoming_message`
(main.py:356). -/
def default_reply : String :=
  "Thank you for contacting Katyayani Organics! We will get back to you shortly."

/-- `process_incoming_message(message)` (main.py:304-391): abort when sender
or text is missing; normalize the phone; upsert the lead; store the inbound
message (+ conversation turn); append to the in-memory buffer; send the fixed
default reply; on send success substitute a UUID for a falsy reply id and
store the outbound message (+ turn) and buffer entry. -/
def process_incoming_message (configured : Bool)
    (phone_number_id access_token : String) (ext : ExtOracle) (msg : IncomingMsg)
    (st : AppState) : AppState :=
  if pyFalsy msg.fromPhone || msg.textBody = "" then st
  else
    let phone_clean := normalizePhone (msg.fromPhone.getD "")
    let r1 := store_lead configured phone_clean
      (some ("Customer " ++ phone_clean)) st.db
    let r2 := store_conversation_with_message configured ext.freshInbound
      phone_clean msg.textBody "Customer" "inbound" "received" "customer"
      msg.msgId none none none r1.2.2
    let recent1 := add_to_recent_messages st.recent msg.textBody phone_clean
      phone_clean "received"
    let sendRes := send_whatsapp_message phone_number_id access_token
      phone_clean default_reply ext.resp
    if sendRes.1 then
      let reply_msg_id := if sendRes.2 = "" then ext.freshReplyId else sendRes.2
      let r3 := store_conversation_with_message configured ext.freshOutbound
        phone_clean default_reply "Katyayani Organics" "outbound" "sent"
        "agent" (some reply_msg_id) none none none r2.2
      let recent2 := add_to_recent_messages recent1 default_reply
        "Katyayani Organics" phone_clean "sent"
      ⟨r3.2, recent2⟩
    else ⟨r2.2, recent1⟩

/-! ## Message status processing (main.py:393-443) -/

/-- One element of the webhook `errors` array (`code`, `message`). -/
structure ErrInfo where
  code : Option Nat
  message : Option String
  deriving Repr, DecidableEq

/-- The projection of one element of the webhook `statuses` array read by
`process_message_status`: `recipient_id`, `id`, `status`, `errors`. -/
structure StatusEvent where
  recipient_id : Option String
  id : Option String
  status : Option String
  errors : List ErrInfo
  deriving Repr, DecidableEq

/-- The Meta-to-internal status lookup table of `process_message_status`
(main.py:416-423): `status_map.get(msg_status, msg_status)` — the four mapped
values, everything else passed through unchanged. -/
def map_meta_status (s : String) : String :=
  if s = "sent" then "sent"
  else if s = "delivered" then "delivered"
  else if s = "read" then "seen"
  else if s = "failed" then "failed"
  else s

/-- Whether a status event carries all three required fields
(main.py:406-408). -/
def statusEventActionable (ev : StatusEvent) : Bool :=
  !(pyFalsy ev.recipient_id || pyFalsy ev.id || pyFalsy ev.status)

/-- The error text extracted by `process_message_status` (main.py:404):
`status.get("errors", [{}])[0].get("message") if status.get("errors") else
None`. -/
def statusEventErrMsg (ev : StatusEvent) : Option String :=
  match ev.errors with
  | [] => none
  | e :: _ => e.message

/-- `process_message_status(status)` (main.py:393-443): abort when a required
field is falsy, map the provider status through the lookup table, and patch
the matching message rows. The normalized phone is computed only for logging
and does not influence the update. -/
def process_message_status (configured : Bool) (ev : StatusEvent)
    (st : AppState) : AppState :=
  if !statusEventActionable ev then st
  else
    let db_status := map_meta_status (ev.status.getD "")
    let r := update_message_status configured (ev.id.getD "") db_status
      (statusEventErrMsg ev) st.db
    { st with db := r.2 }

/-! ## Template status processing (main.py:445-514) -/

/-- The projection of a `message_template_status_update` value read by
`process_template_status_update`: `message_template_name`, `event`, `reason`
(defaulted to `""`; the unused `message_template_id` is omitted). -/
structure TemplateEvent where
  message_template_name : Option String
  event : Option String
  reason : String
  deriving Repr, DecidableEq

/-- The Meta-event-to-status lookup table of `process_template_status_update`
(main.py:469-480); unknown events pass through unchanged. -/
def map_template_event (e : String) : String :=
  if e = "APPROVED" then "APPROVED"
  else if e = "REJECTED" then "REJECTED"
  else if e = "PENDING" then "PENDING"
  else if e = "PENDING_DELETION" then "PENDING_DELETION"
  else if e = "DELETED" then "DELETED"
  else if e = "DISABLED" then "DISABLED"
  else if e = "PAUSED" then "PAUSED"
  else if e = "LIMIT_EXCEEDED" then "REJECTED"
  else e

/-- `process_template_status_update(template_status)` (main.py:445-514):
abort when name or event is falsy; otherwise patch
`templates?template_name=eq.{name}` with the mapped status, adding the
rejection reason when one was sent. -/
def process_template_status_update (configured : Bool) (tev : TemplateEvent)
    (st : AppState) : AppState :=
  if pyFalsy tev.message_template_name || pyFalsy tev.event then st
  else if !configured then st
  else
    let name := tev.message_template_name.getD ""
    let db_status := map_template_event (tev.event.getD "")
    { st with db :=
      { st.db with templates := st.db.templates.map fun t =>
          if t.template_name == name then
            if tev.reason = "" then { t with status := db_status }
            else { t with status := db_status,
                          rejection_reason := some tev.reason }
          else t } }

/-! ## Webhook verification endpoint (main.py:194-220, utils.py:917-919) -/

/-- `verify_webhook_token(token, expected_token)` (utils.py:917-919): plain
equality. The call site passes `hub_verify_token`, an optional query
parameter, so the token side is optional; Python `None == str` is false. -/
def verify_webhook_token (token : Option String) (expected : String) : Bool :=
  token == some expected

/-- `GET /webhook` (`verify_webhook`, main.py:194-220), as the pair of status
code and plain-text body: mode `"subscribe"` with a matching token echoes the
challenge with 200; mode `"subscribe"` with a bad token is 403
(`Invalid verify token`); every other mode is 400 (`Invalid mode`). The query
parameters default to `None` when absent. -/
def verify_webhook (hub_mode hub_challenge hub_verify_token : Option String)
    (verifyToken : String) : Nat × Option String :=
  if hub_mode == some "subscribe" then
    if verify_webhook_token hub_verify_token verifyToken then
      (200, hub_challenge)
    else (403, none)
  else (400, none)

/-! ## Webhook event delivery endpoint (main.py:222-302) -/

/-- The value object of one webhook change
(`change.get("value", {})`): the `messages` and `statuses` arrays (defaulted
to `[]`) and the optional `message_template_status_update` object. -/
structure ChangeValue where
  messages : List IncomingMsg
  statuses : List StatusEvent
  template_update : Option TemplateEvent
  deriving Repr, DecidableEq

/-- One webhook entry: its `changes` array (defaulted to `[]`). -/
structure WebhookEntry where
  changes : List ChangeValue
  deriving Repr, DecidableEq

/-- The parsed webhook body: the `object` field and the `entry` array
(defaulted to `[]`). -/
structure Payload where
  object : Option String
  entry : List WebhookEntry
  deriving Repr, DecidableEq

/-- Process the events of one change value, threading the count of inbound
messages handled so far so each gets its own oracle bundle (main.py:267-289):
messages first, then status updates, then the template update. -/
def processChangeValue (configured : Bool)
    (phone_number_id access_token : String) (exts : Nat → ExtOracle)
    (acc : AppState × Nat) (v : ChangeValue) : AppState × Nat :=
  let afterMsgs := v.messages.foldl
    (fun (p : AppState × Nat) m =>
      (process_incoming_message configured phone_number_id access_token
        (exts p.2) m p.1, p.2 + 1))
    acc
  let afterStatuses := v.statuses.foldl
    (fun s ev => process_message_status configured ev s) afterMsgs.1
  let afterTemplate :=
    match v.template_update with
    | some t => process_template_status_update configured t afterStatuses
    | none => afterStatuses
  (afterTemplate, afterMsgs.2)

/-- `POST /webhook` (`receive_webhook`, main.py:222-302), as status code plus
resulting state. An empty raw body is acknowledged with 200 before any
processing; a body that does not parse as JSON is rejected with 400 before
any processing (`parsed` stands for the result of `json.loads`); otherwise
the entry/changes tree is dispatched when the object type is
`whatsapp_business_account`, and unknown object types are ignored. The
signature header check (main.py:248-256) only logs and never affects state or
status, so it does not appear in the state function. -/
def receive_webhook (configured : Bool)
    (phone_number_id access_token : String) (exts : Nat → ExtOracle)
    (rawBodyIsEmpty : Bool) (parsed : Option Payload) (st : AppState) :
    Nat × AppState :=
  if rawBodyIsEmpty then (200, st)
  else
    match parsed with
    | none => (400, st)
    | some body =>
      if body.object == some "whatsapp_business_account" then
        let finalAcc := body.entry.foldl
          (fun acc e => e.changes.foldl
            (processChangeValue configured phone_number_id access_token exts)
            acc)
          (st, 0)
        (200, finalAcc.1)
      else (200, st)

/-! ## HMAC-SHA256 and webhook signature verification (main.py:516-536)

`verify_webhook_signature` calls `hmac.new(SUPABASE_KEY.encode(), body,
hashlib.sha256).hexdigest()` and compares it with the header value after the
`sha256=` prefix. The hash is embedded concretely: SHA-256 (FIPS 180-4) over
byte lists (`Nat` values below 256), HMAC (RFC 2104) on top, and a lowercase
hex encoder, all executable. Bytes and 32-bit words are `Nat` with explicit
reduction modulo `2 ^ 32` where the algorithm wraps. -/

/-- Reduce to a 32-bit word. -/
def w32 (n : Nat) : Nat := n % 4294967296

/-- Rotate a 32-bit word right by `n` bits. -/
def rotr32 (n x : Nat) : Nat := w32 ((x >>> n) ||| (x <<< (32 - n)))

/-- Bitwise complement of a 32-bit word. -/
def not32 (x : Nat) : Nat := x ^^^ 4294967295

/-- SHA-256 round constants (FIPS 180-4, written in decimal). -/
def shaK : List Nat :=
  [1116352408, 1899447441, 3049323471, 3921009573, 961987163,
   1508970993, 2453635748, 2870763221, 3624381080, 310598401,
   607225278, 1426881987, 1925078388, 2162078206, 2614888103,
   3248222580, 3835390401, 4022224774, 264347078, 604807628,
   770255983, 1249150122, 1555081692, 1996064986, 2554220882,
   2821834349, 2952996808, 3210313671, 3336571891, 3584528711,
   113926993, 338241895, 666307205, 773529912, 1294757372,
   1396182291, 1695183700, 1986661051, 2177026350, 2456956037,
   2730485921, 2820302411, 3259730800, 3345764771, 3516065817,
   3600352804, 4094571909, 275423344, 430227734, 506948616,
   659060556, 883997877, 958139571, 1322822218, 1537002063,
   1747873779, 1955562222, 2024104815, 2227730452, 2361852424,
   2428436474, 2756734187, 3204031479, 3329325298]

/-- SHA-256 initial hash state (FIPS 180-4, written in decimal). -/
def shaH0 : List Nat :=
  [1779033703, 3144134277, 1013904242, 2773480762,
   1359893119, 2600822924, 528734635, 1541459225]

/-- SHA-256 message padding: append `0x80`, zero bytes up to 56 mod 64, and
the bit length as 8 big-endian bytes. -/
def shaPad (msg : List Nat) : List Nat :=
  let zeros := (119 - msg.length % 64) % 64
  let bits := msg.length * 8
  msg ++ [0x80] ++ List.replicate zeros 0 ++
    ((List.range 8).map fun i => bits >>> (8 * (7 - i)) % 256)

/-- Split a byte list into its 64-byte blocks (the padded message length is
always a multiple of 64). -/
def shaBlocks (l : List Nat) : List (List Nat) :=
  (List.range (l.length / 64)).map fun i => ((l.drop (64 * i)).take 64)

/-- Read the 16 big-endian 32-bit words of one 64-byte block. -/
def blockWords (b : List Nat) : List Nat :=
  (List.range 16).map fun i =>
    (b.getD (4 * i) 0) <<< 24 ||| (b.getD (4 * i + 1) 0) <<< 16 |||
    (b.getD (4 * i + 2) 0) <<< 8 ||| b.getD (4 * i + 3) 0

/-- Small sigma 0. -/
def ssig0 (x : Nat) : Nat := rotr32 7 x ^^^ rotr32 18 x ^^^ (x >>> 3)

/-- Small sigma 1. -/
def ssig1 (x : Nat) : Nat := rotr32 17 x ^^^ rotr32 19 x ^^^ (x >>> 10)

/-- Extend the 16 block words by `n` further schedule words. -/
def extendWords (ws : List Nat) : Nat → List Nat
  | 0 => ws
  | n + 1 =>
    extendWords
      (ws ++ [w32 (ssig1 (ws.getD (ws.length - 2) 0) +
                   ws.getD (ws.length - 7) 0 +
                   ssig0 (ws.getD (ws.length - 15) 0) +
                   ws.getD (ws.length - 16) 0)]) n

/-- Big sigma 0. -/
def bsig0 (x : Nat) : Nat := rotr32 2 x ^^^ rotr32 13 x ^^^ rotr32 22 x

/-- Big sigma 1. -/
def bsig1 (x : Nat) : Nat := rotr32 6 x ^^^ rotr32 11 x ^^^ rotr32 25 x

/-- One SHA-256 round on the eight-word working state. -/
def shaRound (st : List Nat) (wi ki : Nat) : List Nat :=
  let a := st.getD 0 0
  let b := st.getD 1 0
  let c := st.getD 2 0
  let d := st.getD 3 0
  let e := st.getD 4 0
  let f := st.getD 5 0
  let g := st.getD 6 0
  let h := st.getD 7 0
  let ch := (e &&& f) ^^^ (not32 e &&& g)
  let maj := (a &&& b) ^^^ (a &&& c) ^^^ (b &&& c)
  let t1 := w32 (h + bsig1 e + ch + ki + wi)
  let t2 := w32 (bsig0 a + maj)
  [w32 (t1 + t2), a, b, c, w32 (d + t1), e, f, g]

/-- SHA-256 compression of one block into the hash state. -/
def shaCompress (h : List Nat) (block : List Nat) : List Nat :=
  let w := extendWords (blockWords block) 48
  let s := (List.range 64).foldl
    (fun st i => shaRound st (w.getD i 0) (shaK.getD i 0)) h
  (List.range 8).map fun i => w32 (h.getD i 0 + s.getD i 0)

/-- SHA-256 digest of a byte list, as 32 bytes. -/
def sha256 (msg : List Nat) : List Nat :=
  let hFinal := (shaBlocks (shaPad msg)).foldl shaCompress shaH0
  (List.range 32).map fun i => hFinal.getD (i / 4) 0 >>> (8 * (3 - i % 4)) % 256

/-- Lowercase hex digit of a nibble. -/
def hexDigit : Nat → Char
  | 0 => '0' | 1 => '1' | 2 => '2' | 3 => '3' | 4 => '4'
  | 5 => '5' | 6 => '6' | 7 => '7' | 8 => '8' | 9 => '9'
  | 10 => 'a' | 11 => 'b' | 12 => 'c' | 13 => 'd' | 14 => 'e'
  | _ => 'f'

/-- Lowercase hex encoding of a byte list, as a character list
(Python `hexdigest()`). -/
def bytesToHexL : List Nat → List Char
  | [] => []
  | b :: bs => hexDigit (b / 16 % 16) :: hexDigit (b % 16) :: bytesToHexL bs

/-- HMAC-SHA256 (RFC 2104): hash long keys, zero-pad to the 64-byte block,
XOR with ipad/opad, nest the two hashes. -/
def hmacSha256 (key msg : List Nat) : List Nat :=
  let k := if 64 < key.length then sha256 key else key
  let k0 := k ++ List.replicate (64 - k.length) 0
  sha256 ((k0.map fun b => b ^^^ 0x5c) ++
    sha256 ((k0.map fun b => b ^^^ 0x36) ++ msg))

/-- `hmac.new(secret, body, hashlib.sha256).hexdigest()` as a string. -/
def hmac_sha256_hex (secret body : List Nat) : String :=
  String.mk (bytesToHexL (hmacSha256 secret body))

/-- UTF-8 bytes of an ASCII string (`str.encode()` restricted to the ASCII
inputs the tests use). -/
def strBytes (s : String) : List Nat :=
  s.data.map Char.toNat

/-- The header prefix `"sha256="` as a character list. -/
def sha256HeaderPat : List Char := ['s', 'h', 'a', '2', '5', '6', '=']

/-- Fuelled scanner behind `removeSha256Pat`; the fuel only forces structural
recursion and never runs out when it starts at the list length. -/
def removeSha256PatAux : Nat → List Char → List Char
  | 0, l => l
  | fuel + 1, l =>
    match l with
    | [] => []
    | c :: cs =>
      if List.isPrefixOf sha256HeaderPat l then
        removeSha256PatAux fuel (l.drop 7)
      else c :: removeSha256PatAux fuel cs

/-- Python `signature.replace("sha256=", "")`: remove every non-overlapping
occurrence of the pattern, scanning left to right. -/
def removeSha256Pat (l : List Char) : List Char :=
  removeSha256PatAux l.length l

/-- `verify_webhook_signature(body, signature)` (main.py:516-536): false on a
missing signature or an unset `SUPABASE_KEY`; false when the header does not
start with `sha256=`; otherwise compare the remainder of the header
(`signature.replace("sha256=", "")`) with the freshly computed hex digest
(`hmac.compare_digest`, i.e. equality evaluated in constant time). The secret
is `SUPABASE_KEY.encode()`, passed here explicitly as bytes. -/
def verify_webhook_signature (body : List Nat) (signature : String)
    (secret : List Nat) : Bool :=
  if signature = "" || secret.isEmpty then false
  else if !(List.isPrefixOf sha256HeaderPat signature.data) then false
  else removeSha256Pat signature.data ==
    (hmac_sha256_hex secret body).data

/-! ## Concrete fixtures used by the end-to-end evaluations -/

/-- The empty starting state: no rows in any table, lead sequence at 1. -/
def st0 : AppState := ⟨⟨[], [], [], [], 1⟩, []⟩

/-- A provider response carrying a message id for the sent reply. -/
def respWithId : ProviderResp := ⟨200, some [some "wamid.out1"]⟩

/-- A successful provider response whose `messages[0]` object carries no
`id` field. -/
def respNoId : ProviderResp := ⟨200, some [none]⟩

/-- Oracle bundle: send succeeds with a provider id; distinct UUID draws
stand ready. -/
def extOk : ExtOracle := ⟨respWithId, "uuid-c1-1", "uuid-c1-2", "uuid-c1-3"⟩

/-- Oracle bundle for a first send that succeeds without a provider id. -/
def extNoIdA : ExtOracle := ⟨respNoId, "uuid-a1", "uuid-a2", "uuid-a3"⟩

/-- Oracle bundle for a second send that succeeds without a provider id;
all six UUID draws across the two bundles are distinct. -/
def extNoIdB : ExtOracle := ⟨respNoId, "uuid-b1", "uuid-b2", "uuid-b3"⟩

/-- A concrete inbound webhook message: sender, text `Hi`, provider id. -/
def msgHi : IncomingMsg := ⟨some "919876543210", "Hi", some "wamid.in0"⟩

/-- A second inbound webhook message from the same sender. -/
def msgHi2 : IncomingMsg :=
  ⟨some "919876543210", "Hello again", some "wamid.in1"⟩

/-- A Gemini oracle that always fails (library missing / API exception). -/
def geminiUnavailable : String → Option String := fun _ => none

/-- A stored outbound message that previously failed with a provider error
code recorded in `error_message`. -/
def msgRowC2 : MessageRow :=
  { phone := "9115551234", message := "hello", direction := "outbound",
    status := "failed", sender_name := "Agent", sender_type := "agent",
    message_id := some "wamid.123", media_url := none, media_type := none,
    caption := none, error_message := some "131026" }

/-- A state holding exactly the failed message `wamid.123`. -/
def stC2 : AppState := ⟨⟨[], [msgRowC2], [], [], 1⟩, []⟩

/-- Scenario B status event: `delivered` for `wamid.123`, no errors array. -/
def evC2 : StatusEvent :=
  { recipient_id := some "15551234", id := some "wamid.123",
    status := some "delivered", errors := [] }


/-! Basic facts about the normalizer. -/

theorem stripPlusSpaceL_idem (l : List Char) :
    stripPlusSpaceL (stripPlusSpaceL l) = stripPlusSpaceL l := by
  simp [stripPlusSpaceL, List.filter_filter]

theorem mem_stripPlusSpaceL {c : Char} {l : List Char}
    (h : c ∈ stripPlusSpaceL l) : c ≠ '+' ∧ c ≠ ' ' := by
  have := List.of_mem_filter h
  constructor <;> intro hc <;> subst hc <;> simp at this

theorem stripPlusSpaceL_normalizePhoneL (l : List Char) :
    stripPlusSpaceL (normalizePhoneL l) = normalizePhoneL l := by
  unfold normalizePhoneL
  split
  · exact stripPlusSpaceL_idem l
  · show stripPlusSpaceL ('9' :: '1' :: stripPlusSpaceL l) = _
    simp [stripPlusSpaceL, List.filter_filter]

theorem normalizePhoneL_starts (l : List Char) :
    List.isPrefixOf ['9', '1'] (normalizePhoneL l) = true := by
  unfold normalizePhoneL
  split
  · assumption
  · simp [List.isPrefixOf]

theorem normalizePhoneL_idem (l : List Char) :
    normalizePhoneL (normalizePhoneL l) = normalizePhoneL l := by
  conv_lhs => rw [normalizePhoneL]
  rw [stripPlusSpaceL_normalizePhoneL, normalizePhoneL_starts]
  simp

theorem mem_normalizePhoneL {c : Char} {l : List Char}
    (h : c ∈ normalizePhoneL l) : c ≠ '+' ∧ c ≠ ' ' := by
  unfold normalizePhoneL at h
  split at h
  · exact mem_stripPlusSpaceL h
  · simp only [List.mem_cons] at h
    rcases h with rfl | rfl | h
    · constructor <;> decide
    · constructor <;> decide
    · exact mem_stripPlusSpaceL h

theorem stripPlusSpaceS_normalizePhone (s : String) :
    stripPlusSpaceS (normalizePhone s) = normalizePhone s := by
  simp [stripPlusSpaceS, normalizePhone, stripPlusSpaceL_normalizePhoneL]

theorem normalizePhone_idem (s : String) :
    normalizePhone (normalizePhone s) = normalizePhone s := by
  simp [normalizePhone, normalizePhoneL_idem]

set_option maxRecDepth 10000

/-! Published test vectors pinning the embedded hash down to the functions the
Python code calls (`hashlib.sha256`, `hmac.new(...).hexdigest()`). -/

/-- FIPS 180-4 vector: SHA-256 of the empty message. -/
theorem sha256_empty_vector :
    String.mk (bytesToHexL (sha256 [])) =
      "e3b0c44298fc1c149afbf4c8996fb92427ae41e4649b934ca495991b7852b855" := by
  decide

/-- RFC 2104 style vector: HMAC-SHA256 with key `key` over the quick brown
fox sentence. -/
theorem hmac_sha256_vector :
    hmac_sha256_hex (strBytes "key")
      (strBytes "The quick brown fox jumps over the lazy dog") =
      "f7bc83f430538424b13298e6aa6fb143ef4d59a14946175997479dbc2d1a3cd8" := by
  decide

/-! ## Claim C10 — bounded recent-messages buffer -/

/-- C10: after every call to `add_to_recent_messages` the buffer holds at most
`MAX_RECENT_MESSAGES` (= 100) entries — its length is exactly
`min (previous + 1) 100` — and the buffer is exactly the suffix of the
appended list that keeps the most recently added entries in insertion order
(the drop count is zero until the bound is exceeded). -/
theorem recent_buffer_bounded (recent : List RecentEntry)
    (message sender phone direction : String) :
    (add_to_recent_messages recent message sender phone direction).length =
      min (recent.length + 1) MAX_RECENT_MESSAGES
    ∧ add_to_recent_messages recent message sender phone direction =
      (recent ++ [recentEntryOf message sender phone direction]).drop
        (recent.length + 1 - MAX_RECENT_MESSAGES) := by
  simp only [add_to_recent_messages, MAX_RECENT_MESSAGES]
  split
  · rename_i h
    simp only [List.length_append, List.length_cons, List.length_nil] at h
    refine ⟨?_, ?_⟩
    · simp only [List.length_drop, List.length_append, List.length_cons,
        List.length_nil]
      omega
    · congr 1
      simp only [List.length_append, List.length_cons, List.length_nil]
      try omega
  · rename_i h
    simp only [List.length_append, List.length_cons, List.length_nil] at h
    refine ⟨?_, ?_⟩
    · simp only [List.length_append, List.length_cons, List.length_nil]
      omega
    · have h0 : recent.length + 1 - 100 = 0 := by omega
      rw [h0, List.drop_zero]

/-! ## Claim C6 — provider status vocabulary mapping -/

/-- C6: the status reconciler maps `sent`, `delivered`, `read`, `failed` to
`sent`, `delivered`, `seen`, `failed` respectively, and every status value
outside the table passes through unchanged. -/
theorem meta_status_map_spec :
    map_meta_status "sent" = "sent"
    ∧ map_meta_status "delivered" = "delivered"
    ∧ map_meta_status "read" = "seen"
    ∧ map_meta_status "failed" = "failed"
    ∧ ∀ s : String, s ≠ "sent" → s ≠ "delivered" → s ≠ "read" →
        s ≠ "failed" → map_meta_status s = s := by
  refine ⟨by decide, by decide, by decide, by decide, ?_⟩
  intro s h1 h2 h3 h4
  simp [map_meta_status, h1, h2, h3, h4]

/-- Witness for C6 at the concrete unmapped status `warning`. -/
theorem meta_status_map_spec_witness :
    ("warning" ≠ "sent") ∧ map_meta_status "warning" = "warning" :=
  ⟨by decide, meta_status_map_spec.2.2.2.2 "warning" (by decide) (by decide)
    (by decide) (by decide)⟩

/-! ## Claim C4 — webhook verification endpoint -/

/-- C4 counterexample: a GET verification request whose mode is not
`subscribe` is answered with status 400 (`Invalid mode`), not with the 403
the claim asserts for every non-success case — even when the supplied token
is correct. -/
theorem verification_mode_not_subscribe_cex :
    verify_webhook (some "unsubscribe") (some "abc123")
      (some "verify_token_123") "verify_token_123" = (400, none)
    ∧ (400 : Nat) ≠ 403 := by
  decide

/-- C4 amended: mode `subscribe` with the matching token echoes the challenge
with 200; mode `subscribe` with a non-matching token is 403; any other mode
(including a missing one) is 400, not 403. -/
theorem verify_webhook_cases (m c t : Option String) (vt : String) :
    (m = some "subscribe" → t = some vt → verify_webhook m c t vt = (200, c))
    ∧ (m = some "subscribe" → t ≠ some vt →
        verify_webhook m c t vt = (403, none))
    ∧ (m ≠ some "subscribe" → verify_webhook m c t vt = (400, none)) := by
  unfold verify_webhook verify_webhook_token
  refine ⟨?_, ?_, ?_⟩
  · intro hm ht
    subst hm ht
    simp
  · intro hm ht
    subst hm
    simp [ht]
  · intro hm
    simp [hm]

/-- Witness for C4 exercising all three verification branches on concrete
requests. -/
theorem verify_webhook_cases_witness :
    verify_webhook (some "subscribe") (some "abc123") (some "tok1") "tok1" =
      (200, some "abc123")
    ∧ verify_webhook (some "subscribe") (some "abc123") (some "bad") "tok1" =
      (403, none)
    ∧ verify_webhook none (some "abc123") (some "tok1") "tok1" =
      (400, none) :=
  ⟨(verify_webhook_cases _ _ _ _).1 rfl rfl,
   (verify_webhook_cases _ _ _ _).2.1 rfl (by decide),
   (verify_webhook_cases _ _ _ _).2.2 (by decide)⟩

/-! ## Claim C9 — empty and malformed POST bodies -/

/-- C9: an empty POST body is acknowledged with 200 and the state (all tables
and the in-memory buffer) is returned untouched; a non-empty body that fails
JSON parsing is rejected with 400, also with the state untouched — in both
cases the handler returns before any processing. -/
theorem webhook_empty_and_malformed_body (configured : Bool)
    (phone_number_id access_token : String) (exts : Nat → ExtOracle)
    (parsed : Option Payload) (st : AppState) :
    receive_webhook configured phone_number_id access_token exts true parsed
      st = (200, st)
    ∧ receive_webhook configured phone_number_id access_token exts false none
      st = (400, st) :=
  ⟨rfl, rfl⟩

/-! ## Claim C7 — phone normalization -/

/-- C7 counterexample: normalization only strips the space character, so a
phone input containing a tab normalizes to a key that still contains
whitespace, refuting the no-whitespace clause of the claim. -/
theorem normalize_whitespace_cex :
    Char.ofNat 9 ∈ (normalizePhone (String.mk
      ['9', '8', Char.ofNat 9, '7', '6'])).data
    ∧ (Char.ofNat 9).isWhitespace = true := by
  decide

/-- C7 amended: every normalized phone key begins with the configured default
prefix `91`; it contains no `+` and no space character (other whitespace, such
as a tab, is not stripped); and normalization is idempotent. -/
theorem normalize_props (s : String) :
    List.isPrefixOf ['9', '1'] (normalizePhone s).data = true
    ∧ (∀ c ∈ (normalizePhone s).data, c ≠ '+' ∧ c ≠ ' ')
    ∧ normalizePhone (normalizePhone s) = normalizePhone s :=
  ⟨normalizePhoneL_starts s.data,
   fun _ hc => mem_normalizePhoneL hc,
   normalizePhone_idem s⟩

/-- Witness for C7 at a concrete phone input with a plus sign and spaces. -/
theorem normalize_props_witness :
    List.isPrefixOf ['9', '1'] (normalizePhone "+91 98 765").data = true
    ∧ ('9' ≠ '+' ∧ '9' ≠ ' ')
    ∧ normalizePhone (normalizePhone "+91 98 765") =
        normalizePhone "+91 98 765" :=
  ⟨(normalize_props "+91 98 765").1,
   (normalize_props "+91 98 765").2.1 '9' (by decide),
   (normalize_props "+91 98 765").2.2⟩

/-! ## Claim C2 — status events touch only status and error text -/

/-- Index lemma: mapping a function over a list acts pointwise under `getD`
at in-range indices. -/
theorem getD_map_lt {α : Type} (l : List α) (f : α → α) (i : Nat) (d : α)
    (h : i < l.length) : (l.map f).getD i d = f (l.getD i d) := by
  have h2 : i < (l.map f).length := by simpa using h
  rw [List.getD_eq_getElem _ _ h2, List.getD_eq_getElem _ _ h,
    List.getElem_map]

/-- C2 counterexample: a `delivered` status event with no `errors` array,
applied to a stored message that carries a non-null `error_message`, clears
that `error_message` to null — the PATCH body always contains both `status`
and `error_message`, so a field other than `status` changes. -/
theorem status_event_error_message_overwritten_cex :
    (stC2.db.messages.map fun r => (r.status, r.error_message)) =
      [("failed", some "131026")]
    ∧ ((process_message_status true evC2 stC2).db.messages.map
        fun r => (r.status, r.error_message)) = [("delivered", none)] := by
  decide

/-- C2 amended: applying a status event changes only the `status` and
`error_message` fields of the messages whose stored `message_id` equals the
event id (status becomes the mapped provider status, `error_message` the
event error text or null); every other field of every message, every
non-matching message, and every other table are left unchanged. -/
theorem status_update_frame (ev : StatusEvent) (st : AppState) (i : Nat)
    (hi : i < st.db.messages.length) :
    (process_message_status true ev st).db.messages.length =
      st.db.messages.length
    ∧ (process_message_status true ev st).db.leads = st.db.leads
    ∧ (process_message_status true ev st).db.conversations =
        st.db.conversations
    ∧ (process_message_status true ev st).db.templates = st.db.templates
    ∧ (process_message_status true ev st).recent = st.recent
    ∧ ((process_message_status true ev st).db.messages.getD i default).phone =
        (st.db.messages.getD i default).phone
    ∧ ((process_message_status true ev st).db.messages.getD i
        default).message = (st.db.messages.getD i default).message
    ∧ ((process_message_status true ev st).db.messages.getD i
        default).direction = (st.db.messages.getD i default).direction
    ∧ ((process_message_status true ev st).db.messages.getD i
        default).sender_name = (st.db.messages.getD i default).sender_name
    ∧ ((process_message_status true ev st).db.messages.getD i
        default).sender_type = (st.db.messages.getD i default).sender_type
    ∧ ((process_message_status true ev st).db.messages.getD i
        default).message_id = (st.db.messages.getD i default).message_id
    ∧ ((process_message_status true ev st).db.messages.getD i
        default).media_url = (st.db.messages.getD i default).media_url
    ∧ ((process_message_status true ev st).db.messages.getD i
        default).media_type = (st.db.messages.getD i default).media_type
    ∧ ((process_message_status true ev st).db.messages.getD i
        default).caption = (st.db.messages.getD i default).caption
    ∧ (statusEventActionable ev = true →
        (st.db.messages.getD i default).message_id = some (ev.id.getD "") →
        ((process_message_status true ev st).db.messages.getD i
            default).status = map_meta_status (ev.status.getD "")
        ∧ ((process_message_status true ev st).db.messages.getD i
            default).error_message = statusEventErrMsg ev)
    ∧ ((statusEventActionable ev = false ∨
        (st.db.messages.getD i default).message_id ≠ some (ev.id.getD "")) →
        (process_message_status true ev st).db.messages.getD i default =
          st.db.messages.getD i default) := by
  by_cases hact : statusEventActionable ev = true
  · have hred : process_message_status true ev st =
        { st with
          db := { st.db with
            messages := st.db.messages.map
              (patchMessageRow (ev.id.getD "")
                (map_meta_status (ev.status.getD ""))
                (statusEventErrMsg ev)) } } := by
      unfold process_message_status update_message_status
      rw [hact]
      rfl
    rw [hred]
    have hgd : ∀ d : MessageRow,
        (st.db.messages.map
          (patchMessageRow (ev.id.getD "")
            (map_meta_status (ev.status.getD ""))
            (statusEventErrMsg ev))).getD i d =
        patchMessageRow (ev.id.getD "") (map_meta_status (ev.status.getD ""))
          (statusEventErrMsg ev) (st.db.messages.getD i d) :=
      fun d => getD_map_lt _ _ _ _ hi
    refine ⟨by simp, rfl, rfl, rfl, rfl, ?_, ?_, ?_, ?_, ?_, ?_, ?_, ?_, ?_,
      ?_, ?_⟩
    · rw [hgd]; unfold patchMessageRow; split <;> rfl
    · rw [hgd]; unfold patchMessageRow; split <;> rfl
    · rw [hgd]; unfold patchMessageRow; split <;> rfl
    · rw [hgd]; unfold patchMessageRow; split <;> rfl
    · rw [hgd]; unfold patchMessageRow; split <;> rfl
    · rw [hgd]; unfold patchMessageRow; split <;> rfl
    · rw [hgd]; unfold patchMessageRow; split <;> rfl
    · rw [hgd]; unfold patchMessageRow; split <;> rfl
    · rw [hgd]; unfold patchMessageRow; split <;> rfl
    · intro _ hid
      rw [hgd]
      unfold patchMessageRow
      rw [if_pos (by rw [beq_iff_eq]; exact hid)]
      exact ⟨rfl, rfl⟩
    · intro hcase
      rcases hcase with hfalse | hne
      · rw [hact] at hfalse
        exact absurd hfalse (by decide)
      · rw [hgd]
        unfold patchMessageRow
        rw [if_neg (by simpa using hne)]
  · have hact2 : statusEventActionable ev = false := by
      simpa using hact
    have hred : process_message_status true ev st = st := by
      unfold process_message_status
      rw [hact2]
      rfl
    rw [hred]
    exact ⟨rfl, rfl, rfl, rfl, rfl, rfl, rfl, rfl, rfl, rfl, rfl, rfl, rfl,
      rfl, fun h => absurd h (by simp [hact2]), fun _ => rfl⟩

/-- Witness for C2 at scenario B concretely: the `delivered` event for
`wamid.123` leaves the leads table and the message text untouched. -/
theorem status_update_frame_witness :
    (0 : Nat) < stC2.db.messages.length
    ∧ (process_message_status true evC2 stC2).db.leads = stC2.db.leads
    ∧ ((process_message_status true evC2 stC2).db.messages.getD 0
        default).message = (stC2.db.messages.getD 0 default).message :=
  ⟨by decide, (status_update_frame evC2 stC2 0 (by decide)).2.1,
    (status_update_frame evC2 stC2 0 (by decide)).2.2.2.2.2.2.1⟩

/-! ## Frame lemmas for the repository operations -/

theorem store_lead_messages (c : Bool) (p : String) (n : Option String)
    (db : DB) : ((store_lead c p n db).2.2).messages = db.messages := by
  unfold store_lead
  split
  · rfl
  · split <;> rfl

theorem store_lead_leads_cases (c : Bool) (p : String) (n : Option String)
    (db : DB) :
    (store_lead c p n db).2.2.leads = db.leads
    ∨ ∃ nl, (store_lead c p n db).2.2.leads = db.leads ++ [nl]
        ∧ nl.phone = stripPlusSpaceS p := by
  unfold store_lead
  split
  · exact Or.inl rfl
  · split
    · exact Or.inl rfl
    · exact Or.inr ⟨_, rfl, rfl⟩

theorem store_lead_exists (p : String) (n : Option String) (db : DB) :
    ∃ x ∈ (store_lead true p n db).2.2.leads,
      (x.phone == stripPlusSpaceS p) = true := by
  unfold store_lead
  split
  · rename_i heq
    exact absurd heq (by decide)
  · split
    · rename_i l heq
      have hm := List.mem_of_find?_eq_some heq
      have hp := List.find?_some heq
      exact ⟨l, hm, hp⟩
    · exact ⟨_, List.mem_append_right _ (List.mem_singleton_self _),
        by simp⟩

theorem store_lead_of_found (c : Bool) (p : String) (n : Option String)
    (db : DB) (hex : ∃ x ∈ db.leads, (x.phone == stripPlusSpaceS p) = true) :
    (store_lead c p n db).2.2 = db := by
  unfold store_lead
  split
  · rfl
  · split
    · rfl
    · rename_i heq
      obtain ⟨x, hx, hpx⟩ := hex
      exact absurd hpx (by simpa using List.find?_eq_none.mp heq x hx)

theorem scm_messages (freshId phone message sender direction status
    sender_type : String) (mid mu mt cap : Option String) (db : DB) :
    (store_conversation_with_message true freshId phone message sender
      direction status sender_type mid mu mt cap db).2.messages =
    db.messages ++ [scmMessageRow (normalizePhone phone) message sender
      direction status sender_type (pyOrStr mid freshId) mu mt cap] := by
  unfold store_conversation_with_message
  split
  · rename_i h
    exact absurd h (by decide)
  · dsimp only
    split <;> rfl

theorem scm_leads_cases (freshId phone message sender direction status
    sender_type : String) (mid mu mt cap : Option String) (db : DB) :
    (store_conversation_with_message true freshId phone message sender
      direction status sender_type mid mu mt cap db).2.leads = db.leads
    ∨ ∃ nl, (store_conversation_with_message true freshId phone message
        sender direction status sender_type mid mu mt cap db).2.leads =
          db.leads ++ [nl]
        ∧ nl.phone = normalizePhone phone := by
  unfold store_conversation_with_message
  split
  · rename_i h
    exact absurd h (by decide)
  · dsimp only
    split
    · exact Or.inl rfl
    · exact Or.inr ⟨_, rfl, rfl⟩

theorem scm_leads_of_found (freshId phone message sender direction status
    sender_type : String) (mid mu mt cap : Option String) (db : DB)
    (hex : ∃ x ∈ db.leads, (x.phone == normalizePhone phone) = true) :
    (store_conversation_with_message true freshId phone message sender
      direction status sender_type mid mu mt cap db).2.leads = db.leads := by
  unfold store_conversation_with_message
  split
  · rename_i h
    exact absurd h (by decide)
  · dsimp only
    split
    · rfl
    · rename_i heq
      obtain ⟨x, hx, hpx⟩ := hex
      exact absurd hpx (by simpa using List.find?_eq_none.mp heq x hx)

/-! ## Claim C1 — the automatic reply is a fixed default, not ReplyGenerator -/

/-- C1 counterexample: processing the inbound message `Hi` stores the
hard-coded default reply as the outbound message text, while `ReplyGenerator`
(`generate_ai_reply`, in the Gemini-not-ready configuration of a fresh
process) returns the distinct fallback reply — so the reply text is not the
text obtained by calling `ReplyGenerator` with the inbound text. The pipeline
never invokes `generate_ai_reply` at all. -/
theorem auto_reply_not_from_generator_cex :
    ((process_incoming_message true "pnid" "tok" extOk msgHi st0).db.messages.map
      fun r => (r.direction, r.message)) =
      [("inbound", "Hi"), ("outbound", default_reply)]
    ∧ generate_ai_reply false "" geminiUnavailable "Hi" "919876543210" none =
        agent_fallback_reply
    ∧ default_reply ≠ agent_fallback_reply :=
  ⟨by decide, rfl, by decide⟩

/-- C1 amended: for every actionable inbound message (sender and text
present), when the provider send succeeds, the pipeline persists an outbound
Message whose text is the hard-coded default reply, and every outbound row it
adds carries exactly that default text — `generate_ai_reply` plays no role. -/
theorem auto_reply_fixed_default (phone_number_id access_token : String)
    (ext : ExtOracle) (msg : IncomingMsg) (st : AppState)
    (hphone : pyFalsy msg.fromPhone = false) (htext : msg.textBody ≠ "")
    (hsend : (send_whatsapp_message phone_number_id access_token
      (normalizePhone (msg.fromPhone.getD "")) default_reply ext.resp).1 =
      true) :
    (∃ r ∈ (process_incoming_message true phone_number_id access_token ext
        msg st).db.messages,
      r.direction = "outbound" ∧ r.message = default_reply
        ∧ r.sender_type = "agent")
    ∧ ∀ r ∈ (process_incoming_message true phone_number_id access_token ext
        msg st).db.messages,
        r ∉ st.db.messages → r.direction = "outbound" →
          r.message = default_reply := by
  have hmsgs : (process_incoming_message true phone_number_id access_token
      ext msg st).db.messages =
      st.db.messages
      ++ [scmMessageRow (normalizePhone (normalizePhone (msg.fromPhone.getD
            ""))) msg.textBody "Customer" "inbound" "received" "customer"
            (pyOrStr msg.msgId ext.freshInbound) none none none]
      ++ [scmMessageRow (normalizePhone (normalizePhone (msg.fromPhone.getD
            ""))) default_reply "Katyayani Organics" "outbound" "sent" "agent"
            (pyOrStr (some (if (send_whatsapp_message phone_number_id
              access_token (normalizePhone (msg.fromPhone.getD ""))
              default_reply ext.resp).2 = "" then ext.freshReplyId
              else (send_whatsapp_message phone_number_id access_token
                (normalizePhone (msg.fromPhone.getD "")) default_reply
                ext.resp).2)) ext.freshOutbound) none none none] := by
    unfold process_incoming_message
    rw [if_neg (by simp [hphone, htext])]
    dsimp only
    rw [if_pos hsend]
    dsimp only
    rw [scm_messages, scm_messages, store_lead_messages]
  constructor
  · rw [hmsgs]
    exact ⟨_, List.mem_append_right _ (List.mem_singleton_self _),
      rfl, rfl, rfl⟩
  · intro r hr hnew hdir
    rw [hmsgs] at hr
    rcases List.mem_append.mp hr with h1 | h2
    · rcases List.mem_append.mp h1 with h0 | hIn
      · exact absurd h0 hnew
      · rw [List.mem_singleton] at hIn
        subst hIn
        simp [scmMessageRow] at hdir
    · rw [List.mem_singleton] at h2
      subst h2
      rfl

/-- Witness for C1: the concrete inbound message `Hi` with a successful send;
the theorem yields that the stored outbound row text is the default reply. -/
theorem auto_reply_fixed_default_witness :
    pyFalsy msgHi.fromPhone = false
    ∧ msgHi.textBody ≠ ""
    ∧ (send_whatsapp_message "pnid" "tok"
        (normalizePhone (msgHi.fromPhone.getD "")) default_reply
        extOk.resp).1 = true
    ∧ (scmMessageRow (normalizePhone (normalizePhone "919876543210"))
        default_reply "Katyayani Organics" "outbound" "sent" "agent"
        "wamid.out1" none none none).message = default_reply :=
  ⟨by decide, by decide, by decide,
    (auto_reply_fixed_default "pnid" "tok" extOk msgHi st0 (by decide)
      (by decide) (by decide)).2
      (scmMessageRow (normalizePhone (normalizePhone "919876543210"))
        default_reply "Katyayani Organics" "outbound" "sent" "agent"
        "wamid.out1" none none none)
      (by decide) (by decide) (by decide)⟩

/-! ## Claim C3 — surrogate id on a send without a provider id -/

/-- C3: evaluation at the failing input. A successful provider response whose
`messages[0]` object has no `id` makes `send_whatsapp_message` return the
literal `"unknown"` (the `.get("id", "unknown")` default), which is truthy,
so the `if not reply_msg_id` UUID guard never fires: processing two inbound
messages whose auto-replies both come back without provider ids persists two
outbound messages that both carry the message id `"unknown"` — a guaranteed
collision, not a fresh UUID surrogate, although both oracle bundles had
distinct fresh UUIDs available. -/
theorem surrogate_id_unknown_collision :
    send_whatsapp_message "pnid" "tok" "919876543210" default_reply respNoId =
      (true, "unknown")
    ∧ (((process_incoming_message true "pnid" "tok" extNoIdB msgHi2
          (process_incoming_message true "pnid" "tok" extNoIdA msgHi
            st0)).db.messages.filter
          fun r => r.direction == "outbound").map
        fun r => r.message_id) = [some "unknown", some "unknown"] := by
  decide

/-! ## Claim C5 — lead upsert under duplicate processing -/

theorem pim_skip (c : Bool) (pid atk : String) (ext : ExtOracle)
    (msg : IncomingMsg) (st : AppState)
    (h : (pyFalsy msg.fromPhone || msg.textBody = "") = true) :
    process_incoming_message c pid atk ext msg st = st := by
  unfold process_incoming_message
  rw [if_pos h]

theorem pim_db_false (pid atk : String) (ext : ExtOracle) (msg : IncomingMsg)
    (st : AppState) :
    (process_incoming_message false pid atk ext msg st).db = st.db := by
  unfold process_incoming_message
  split
  · rfl
  · dsimp only
    split <;> rfl

theorem pim_leads_exists (pid atk : String) (ext : ExtOracle)
    (msg : IncomingMsg) (st : AppState)
    (hg : (pyFalsy msg.fromPhone || msg.textBody = "") = false) :
    ∃ x ∈ (process_incoming_message true pid atk ext msg st).db.leads,
      (x.phone == normalizePhone (msg.fromPhone.getD "")) = true := by
  unfold process_incoming_message
  rw [if_neg (by simp [hg])]
  dsimp only
  set key := normalizePhone (msg.fromPhone.getD "") with hkey
  have hkeys : stripPlusSpaceS key = key := by
    rw [hkey]; exact stripPlusSpaceS_normalizePhone _
  have hkeyn : normalizePhone key = key := by
    rw [hkey]; exact normalizePhone_idem _
  have step1 : ∀ db : DB,
      ∃ x ∈ (store_lead true key (some ("Customer " ++ key)) db).2.2.leads,
        (x.phone == key) = true := by
    intro db
    have h1 := store_lead_exists key (some ("Customer " ++ key)) db
    rwa [hkeys] at h1
  have hB := scm_leads_of_found ext.freshInbound key msg.textBody "Customer"
    "inbound" "received" "customer" msg.msgId none none none
    (store_lead true key (some ("Customer " ++ key)) st.db).2.2
    (by rw [hkeyn]; exact step1 st.db)
  split
  · have hC := scm_leads_of_found ext.freshOutbound key default_reply
      "Katyayani Organics" "outbound" "sent" "agent"
      (some (if (send_whatsapp_message pid atk key default_reply
          ext.resp).2 = "" then ext.freshReplyId
        else (send_whatsapp_message pid atk key default_reply ext.resp).2))
      none none none
      (store_conversation_with_message true ext.freshInbound key msg.textBody
        "Customer" "inbound" "received" "customer" msg.msgId none none none
        (store_lead true key (some ("Customer " ++ key)) st.db).2.2).2
      (by rw [hkeyn, hB]; exact step1 st.db)
    rw [hC, hB]
    exact step1 st.db
  · rw [hB]
    exact step1 st.db

theorem pim_leads_cases (pid atk : String) (ext : ExtOracle)
    (msg : IncomingMsg) (st : AppState)
    (hg : (pyFalsy msg.fromPhone || msg.textBody = "") = false) :
    (process_incoming_message true pid atk ext msg st).db.leads = st.db.leads
    ∨ ∃ nl, (process_incoming_message true pid atk ext msg
        st).db.leads = st.db.leads ++ [nl] := by
  unfold process_incoming_message
  rw [if_neg (by simp [hg])]
  dsimp only
  set key := normalizePhone (msg.fromPhone.getD "") with hkey
  have hkeys : stripPlusSpaceS key = key := by
    rw [hkey]; exact stripPlusSpaceS_normalizePhone _
  have hkeyn : normalizePhone key = key := by
    rw [hkey]; exact normalizePhone_idem _
  have step1 : ∀ db : DB,
      ∃ x ∈ (store_lead true key (some ("Customer " ++ key)) db).2.2.leads,
        (x.phone == key) = true := by
    intro db
    have h1 := store_lead_exists key (some ("Customer " ++ key)) db
    rwa [hkeys] at h1
  have hA := store_lead_leads_cases true key (some ("Customer " ++ key)) st.db
  have hB := scm_leads_of_found ext.freshInbound key msg.textBody "Customer"
    "inbound" "received" "customer" msg.msgId none none none
    (store_lead true key (some ("Customer " ++ key)) st.db).2.2
    (by rw [hkeyn]; exact step1 st.db)
  split
  · have hC := scm_leads_of_found ext.freshOutbound key default_reply
      "Katyayani Organics" "outbound" "sent" "agent"
      (some (if (send_whatsapp_message pid atk key default_reply
          ext.resp).2 = "" then ext.freshReplyId
        else (send_whatsapp_message pid atk key default_reply ext.resp).2))
      none none none
      (store_conversation_with_message true ext.freshInbound key msg.textBody
        "Customer" "inbound" "received" "customer" msg.msgId none none none
        (store_lead true key (some ("Customer " ++ key)) st.db).2.2).2
      (by rw [hkeyn, hB]; exact step1 st.db)
    rw [hC, hB]
    rcases hA with hA | ⟨nl, hA, _⟩
    · exact Or.inl hA
    · exact Or.inr ⟨nl, hA⟩
  · rw [hB]
    rcases hA with hA | ⟨nl, hA, _⟩
    · exact Or.inl hA
    · exact Or.inr ⟨nl, hA⟩

theorem pim_leads_of_found (pid atk : String) (ext : ExtOracle)
    (msg : IncomingMsg) (st : AppState)
    (hg : (pyFalsy msg.fromPhone || msg.textBody = "") = false)
    (hex : ∃ x ∈ st.db.leads,
      (x.phone == normalizePhone (msg.fromPhone.getD "")) = true) :
    (process_incoming_message true pid atk ext msg st).db.leads =
      st.db.leads := by
  unfold process_incoming_message
  rw [if_neg (by simp [hg])]
  dsimp only
  set key := normalizePhone (msg.fromPhone.getD "") with hkey
  have hkeys : stripPlusSpaceS key = key := by
    rw [hkey]; exact stripPlusSpaceS_normalizePhone _
  have hkeyn : normalizePhone key = key := by
    rw [hkey]; exact normalizePhone_idem _
  have hA : (store_lead true key (some ("Customer " ++ key)) st.db).2.2 =
      st.db :=
    store_lead_of_found true key (some ("Customer " ++ key)) st.db
      (by rw [hkeys]; exact hex)
  have hB := scm_leads_of_found ext.freshInbound key msg.textBody "Customer"
    "inbound" "received" "customer" msg.msgId none none none
    (store_lead true key (some ("Customer " ++ key)) st.db).2.2
    (by rw [hkeyn, hA]; exact hex)
  split
  · have hC := scm_leads_of_found ext.freshOutbound key default_reply
      "Katyayani Organics" "outbound" "sent" "agent"
      (some (if (send_whatsapp_message pid atk key default_reply
          ext.resp).2 = "" then ext.freshReplyId
        else (send_whatsapp_message pid atk key default_reply ext.resp).2))
      none none none
      (store_conversation_with_message true ext.freshInbound key msg.textBody
        "Customer" "inbound" "received" "customer" msg.msgId none none none
        (store_lead true key (some ("Customer " ++ key)) st.db).2.2).2
      (by rw [hkeyn, hB, hA]; exact hex)
    rw [hC, hB, hA]
  · rw [hB, hA]

/-- C5: processing the same inbound-message event twice creates at most one
Lead row for the normalized phone key — the first processing either leaves
the leads table unchanged or appends exactly one lead, and the second
processing finds the existing lead (whichever code path created it) and
inserts nothing: its leads table is identical to the one after the first
processing. Holds for every starting state, oracle outcome, and
configuration. -/
theorem duplicate_event_single_lead (configured : Bool)
    (phone_number_id access_token : String) (e1 e2 : ExtOracle)
    (msg : IncomingMsg) (st : AppState) :
    ((process_incoming_message configured phone_number_id access_token e1 msg
        st).db.leads = st.db.leads
      ∨ ∃ nl, (process_incoming_message configured phone_number_id
          access_token e1 msg st).db.leads = st.db.leads ++ [nl])
    ∧ (process_incoming_message configured phone_number_id access_token e2
        msg (process_incoming_message configured phone_number_id access_token
          e1 msg st)).db.leads =
      (process_incoming_message configured phone_number_id access_token e1
        msg st).db.leads := by
  by_cases hg : (pyFalsy msg.fromPhone || msg.textBody = "") = true
  · rw [pim_skip configured phone_number_id access_token e1 msg st hg,
      pim_skip configured phone_number_id access_token e2 msg st hg]
    exact ⟨Or.inl rfl, rfl⟩
  · have hgf : (pyFalsy msg.fromPhone || msg.textBody = "") = false :=
      Bool.eq_false_iff.mpr hg
    cases configured with
    | false =>
      constructor
      · exact Or.inl (congrArg DB.leads
          (pim_db_false phone_number_id access_token e1 msg st))
      · rw [congrArg DB.leads (pim_db_false phone_number_id access_token e2
          msg (process_incoming_message false phone_number_id access_token e1
            msg st))]
    | true =>
      constructor
      · exact pim_leads_cases phone_number_id access_token e1 msg st hgf
      · exact pim_leads_of_found phone_number_id access_token e2 msg
          (process_incoming_message true phone_number_id access_token e1 msg
            st) hgf
          (pim_leads_exists phone_number_id access_token e1 msg st hgf)

/-! ## Claim C8 — webhook signature verification -/

theorem hexDigit_ne_s (n : Nat) : hexDigit n ≠ 's' := by
  unfold hexDigit
  split <;> decide

theorem s_not_mem_bytesToHexL (bs : List Nat) :
    ('s' : Char) ∉ bytesToHexL bs := by
  induction bs with
  | nil => simp [bytesToHexL]
  | cons b t ih =>
    intro h
    simp only [bytesToHexL, List.mem_cons] at h
    rcases h with h | h | h
    · exact hexDigit_ne_s _ h.symm
    · exact hexDigit_ne_s _ h.symm
    · exact ih h

theorem isPrefixOf_append_self (l t : List Char) :
    List.isPrefixOf l (l ++ t) = true := by
  induction l with
  | nil => simp [List.isPrefixOf]
  | cons c cs ih => simp [List.isPrefixOf, ih]

theorem removeAux_no_s (fuel : Nat) (l : List Char)
    (hs : ('s' : Char) ∉ l) : removeSha256PatAux fuel l = l := by
  induction fuel generalizing l with
  | zero => rfl
  | succ n ih =>
    cases l with
    | nil => rfl
    | cons c cs =>
      simp only [List.mem_cons, not_or] at hs
      obtain ⟨h1, h2⟩ := hs
      have hbeq : (('s' : Char) == c) = false := by
        exact beq_eq_false_iff_ne.mpr h1
      have hp : List.isPrefixOf sha256HeaderPat (c :: cs) = false := by
        simp [sha256HeaderPat, List.isPrefixOf, hbeq]
      show (if List.isPrefixOf sha256HeaderPat (c :: cs) = true then
          removeSha256PatAux n ((c :: cs).drop 7)
        else c :: removeSha256PatAux n cs) = c :: cs
      rw [hp, if_neg (by decide)]
      rw [ih cs h2]

theorem removeAux_pat_step (fuel : Nat) (l : List Char) :
    removeSha256PatAux (fuel + 1) (sha256HeaderPat ++ l) =
      removeSha256PatAux fuel l := by
  show (if List.isPrefixOf sha256HeaderPat (sha256HeaderPat ++ l) = true then
      removeSha256PatAux fuel ((sha256HeaderPat ++ l).drop 7)
    else 's' :: removeSha256PatAux fuel
      (['h', 'a', '2', '5', '6', '='] ++ l)) = removeSha256PatAux fuel l
  rw [if_pos (isPrefixOf_append_self _ _)]
  congr 1

theorem removeSha256Pat_prefix_hex (l : List Char) (hs : ('s' : Char) ∉ l) :
    removeSha256Pat (sha256HeaderPat ++ l) = l := by
  have h1 : removeSha256Pat (sha256HeaderPat ++ l) =
      removeSha256PatAux ((sha256HeaderPat ++ l).length)
        (sha256HeaderPat ++ l) := rfl
  rw [h1, show (sha256HeaderPat ++ l).length = l.length + 6 + 1 by
    simp [sha256HeaderPat, List.length_append]]
  rw [removeAux_pat_step]
  exact removeAux_no_s _ _ hs

theorem verify_empty_secret (body : List Nat) (sig : String) :
    verify_webhook_signature body sig [] = false := by
  unfold verify_webhook_signature
  simp

theorem verify_empty_header (body secret : List Nat) :
    verify_webhook_signature body "" secret = false := by
  unfold verify_webhook_signature
  simp

theorem verify_bad_header (body secret : List Nat) (sig : String)
    (h : List.isPrefixOf sha256HeaderPat sig.data = false) :
    verify_webhook_signature body sig secret = false := by
  unfold verify_webhook_signature
  split
  · rfl
  · rw [h]
    simp

theorem verify_correct_sig (body secret : List Nat) (hs : secret ≠ []) :
    verify_webhook_signature body
      (String.mk (sha256HeaderPat ++ (hmac_sha256_hex secret body).data))
      secret = true := by
  cases secret with
  | nil => exact absurd rfl hs
  | cons a t =>
    show (removeSha256Pat (sha256HeaderPat ++
        bytesToHexL (hmacSha256 (a :: t) body)) ==
      bytesToHexL (hmacSha256 (a :: t) body)) = true
    rw [removeSha256Pat_prefix_hex _ (s_not_mem_bytesToHexL _)]
    exact beq_self_eq_true _

theorem verify_wrong_digest (body bodyB secret : List Nat) (hs : secret ≠ [])
    (hd : hmac_sha256_hex secret bodyB ≠ hmac_sha256_hex secret body) :
    verify_webhook_signature bodyB
      (String.mk (sha256HeaderPat ++ (hmac_sha256_hex secret body).data))
      secret = false := by
  cases secret with
  | nil => exact absurd rfl hs
  | cons a t =>
    show (removeSha256Pat (sha256HeaderPat ++
        bytesToHexL (hmacSha256 (a :: t) body)) ==
      bytesToHexL (hmacSha256 (a :: t) bodyB)) = false
    rw [removeSha256Pat_prefix_hex _ (s_not_mem_bytesToHexL _)]
    exact beq_eq_false_iff_ne.mpr
      fun hh => hd (congrArg String.mk hh.symm)

/-- C8 counterexample: with an empty shared secret (`SUPABASE_KEY` unset or
empty), verification returns false even for the exactly correct
`sha256=<hex HMAC>` header over the body — refuting the claim that
verification succeeds for every `(body, secret)` pair. The guard
`if not signature or not SUPABASE_KEY: return False` fires before the digest
is even computed. -/
theorem signature_empty_secret_cex :
    verify_webhook_signature (strBytes "hello")
      (String.mk (sha256HeaderPat ++
        (hmac_sha256_hex [] (strBytes "hello")).data)) [] = false :=
  verify_empty_secret (strBytes "hello") _

/-- C8 amended: for every body and nonempty secret, verification accepts the
header `sha256=` followed by the hex HMAC-SHA256 of the body under the
secret; with an empty secret it returns false even for that correct header; a
mutated body makes verification return false whenever the mutation changes
the HMAC digest (any failing comparison — single-bit or otherwise — yields
false, never an exception); and a missing header or one not starting with
`sha256=` returns false rather than throwing. -/
theorem signature_verification_props (body bodyB secret : List Nat)
    (sig : String) :
    (secret ≠ [] →
      verify_webhook_signature body
        (String.mk (sha256HeaderPat ++ (hmac_sha256_hex secret body).data))
        secret = true)
    ∧ verify_webhook_signature body sig [] = false
    ∧ (secret ≠ [] →
        hmac_sha256_hex secret bodyB ≠ hmac_sha256_hex secret body →
        verify_webhook_signature bodyB
          (String.mk (sha256HeaderPat ++ (hmac_sha256_hex secret body).data))
          secret = false)
    ∧ (List.isPrefixOf sha256HeaderPat sig.data = false →
        verify_webhook_signature body sig secret = false)
    ∧ verify_webhook_signature body "" secret = false :=
  ⟨fun hs => verify_correct_sig body secret hs,
   verify_empty_secret body sig,
   fun hs hd => verify_wrong_digest body bodyB secret hs hd,
   fun h => verify_bad_header body secret sig h,
   verify_empty_header body secret⟩

/-- Witness for C8 at concrete inputs: secret `k`, body `hello`, mutated body
`hellp`, malformed header `nope`; the two digests are computed concretely and
differ. -/
theorem signature_verification_props_witness :
    strBytes "k" ≠ []
    ∧ hmac_sha256_hex (strBytes "k") (strBytes "hellp") ≠
        hmac_sha256_hex (strBytes "k") (strBytes "hello")
    ∧ List.isPrefixOf sha256HeaderPat ("nope".data) = false
    ∧ verify_webhook_signature (strBytes "hello")
        (String.mk (sha256HeaderPat ++
          (hmac_sha256_hex (strBytes "k") (strBytes "hello")).data))
        (strBytes "k") = true
    ∧ verify_webhook_signature (strBytes "hellp")
        (String.mk (sha256HeaderPat ++
          (hmac_sha256_hex (strBytes "k") (strBytes "hello")).data))
        (strBytes "k") = false
    ∧ verify_webhook_signature (strBytes "hello") "nope" (strBytes "k") =
        false :=
  ⟨by decide, by decide, by decide,
   (signature_verification_props (strBytes "hello") (strBytes "hellp")
     (strBytes "k") "nope").1 (by decide),
   (signature_verification_props (strBytes "hello") (strBytes "hellp")
     (strBytes "k") "nope").2.2.1 (by decide) (by decide),
   (signature_verification_props (strBytes "hello") (strBytes "hellp")
     (strBytes "k") "nope").2.2.2.1 (by decide)⟩
